import Mathlib

/-!
Verification development for the `lingua` streaming speech-to-text pipeline.

The definitions below are a shallow embedding of the Python sources:

* `src/modules/stt_worker.py` — the `STTWorker` class: audio callback and
  handoff queue, the rolling sample buffer maintained by `_process_loop`,
  the periodic transcription attempt, and the `start`/`stop` lifecycle.
* `src/modules/translator.py` and the `TranslatorWrapper` in `src/lingua.py`
  — the translation fallback chain.

Machine floats only ever enter these claims through sample counts and
monotonic-clock comparisons, so samples are modelled as rationals
(`int16 / 32768`) and times as rationals; external effectful calls
(the Whisper model, googletrans, Argos, the sound device) are modelled as
oracles: explicit `Except`/`Option` values recording what the call would
have returned or raised.
-/

/-- `SAMPLE_RATE = 16000` from `stt_worker.py` line 19. -/
def SAMPLE_RATE : ℕ := 16000

/-- numpy `a[-n:]` for an array `a` of length at least `n`: keep the last `n`
elements.  For `n ≥ length` this is the whole list, which also matches numpy. -/
def takeRight (n : ℕ) (l : List α) : List α := l.drop (l.length - n)

/-- `block.astype(np.float32).reshape(-1) / 32768.0` (line 108): int16 samples
normalized to rationals in `[-1, 1]`. -/
def blockToFloat (block : List Int) : List ℚ :=
  List.map (fun x : Int => (x : ℚ) / 32768) block

/-- `int(self.buffer_seconds * SAMPLE_RATE)` (line 98); Python `int()` truncates
toward zero, which is `floor` for the nonnegative values used here. -/
def maxSamplesFor (bufferSeconds : ℚ) : ℕ :=
  (⌊bufferSeconds * (SAMPLE_RATE : ℚ)⌋).toNat

/-- Lines 109–111 of `stt_worker.py`:
`buffer = np.concatenate((buffer, block_f))` followed by
`if buffer.shape[0] > max_samples: buffer = buffer[-max_samples:]`. -/
def RollingBuffer.append (maxSamples : ℕ) (buffer block : List ℚ) : List ℚ :=
  let b := buffer ++ block
  if maxSamples < b.length then takeRight maxSamples b else b

/-- A whole sequence of `append` calls, oldest first. -/
def RollingBuffer.appendAll (maxSamples : ℕ) (buffer : List ℚ)
    (blocks : List (List ℚ)) : List ℚ :=
  blocks.foldl (RollingBuffer.append maxSamples) buffer

/-! String helpers mirroring Python semantics used by `_process_loop`. -/

/-- ASCII whitespace stripped by Python `str.strip()` (space, tab, newline,
carriage return, vertical tab, form feed; the unicode spaces Python also strips
never occur in these claims). -/
def isPySpace (c : Char) : Bool :=
  c.toNat = 32 || c.toNat = 9 || c.toNat = 10 || c.toNat = 13 ||
    c.toNat = 11 || c.toNat = 12

/-- Python `s.strip()`. -/
def pyStrip (s : String) : String :=
  String.mk (((s.toList.dropWhile isPySpace).reverse.dropWhile isPySpace).reverse)

/-- Python `s.startswith(p)` (`src.startswith("en")` etc. in both translator
variants). -/
def pyStartswith (s pre : String) : Bool := List.isPrefixOf pre.toList s.toList

/-- Python truthiness test `not x` for an optional string: `None` and `""` are
falsy (`if not translated:` at line 124 of `stt_worker.py`). -/
def strFalsy : Option String → Bool
  | none => true
  | some s => s == ""

/-- Python `x or ""` for an optional string: `None` and `""` both give `""`
(`translated or ""` at line 135). -/
def orEmpty : Option String → String
  | none => ""
  | some s => s

/-! Producer-to-worker handoff queue (`stt_worker.py` lines 39, 56–62).

`queue.Queue(maxsize)` in Python: `maxsize <= 0` means the queue is infinite.
`put_nowait` raises `queue.Full` exactly when `0 < maxsize` and the queue
already holds `maxsize` items; otherwise it appends. -/
structure PyQueue (α : Type) where
  maxsize : ℕ
  items : List α
deriving DecidableEq

/-- The worker's queue is created as `queue.Queue()` (line 39), i.e. with the
default `maxsize = 0`: infinite. -/
def audioQueueMaxsize : ℕ := 0

/-- `put_nowait`: `Except.error ()` models a raised `queue.Full`. -/
def putNowait (q : PyQueue α) (x : α) : Except Unit (PyQueue α) :=
  if 0 < q.maxsize ∧ q.maxsize ≤ q.items.length then Except.error ()
  else Except.ok ⟨q.maxsize, q.items ++ [x]⟩

/-- `_audio_callback` (lines 56–62): `put_nowait` the block's copy, and
`except queue.Full: pass` — a full queue silently drops the new block. -/
def audioCallback (q : PyQueue α) (block : α) : PyQueue α :=
  match putNowait q block with
  | Except.ok q2 => q2
  | Except.error _ => q

/-! Translation fallback chain.

Two variants exist in the repository: `TranslatorWrapper` in
`src/modules/translator.py` (used by `STTWorker`; googletrans only) and
`TranslatorWrapper` in `src/lingua.py` (Argos primary, googletrans secondary).
External calls are oracles: `Except.error ()` models a raised exception. -/
inductive Backend
  | argosPrimary
  | googleSecondary
deriving DecidableEq

/-- `src/modules/translator.py`: the wrapper holds only the googletrans flag
(`self.google`, set at construction iff googletrans imported) and the
googletrans call, an oracle taking `(text, src, dest)`. -/
structure ModulesTranslatorW where
  google : Bool
  gtr : String → String → String → Except Unit String

/-- `translate` of `src/modules/translator.py` lines 15–26; the second
component records which backends were invoked during the call. -/
def ModulesTranslatorW.translate (w : ModulesTranslatorW) (text src : String) :
    Option String × List Backend :=
  if text = "" then (none, [])
  else if w.google then
    match w.gtr text src (if pyStartswith src "en" then "hu" else "en") with
    | Except.ok t => (some t, [Backend.googleSecondary])
    | Except.error _ => (none, [Backend.googleSecondary])
  else (none, [])

/-- `src/lingua.py` `TranslatorWrapper`: `self.argos`, `self.google`, the two
Argos translation objects (always present when `self.argos` is true) and the
googletrans object, as oracles. -/
structure LinguaTranslatorW where
  argos : Bool
  google : Bool
  enToHu : String → Except Unit String
  huToEn : String → Except Unit String
  gtr : String → String → String → Except Unit String

/-- `__init__` of `src/lingua.py` lines 65–85: `self.argos` is true iff Argos
imported, initialized and both languages were found (collapsed into
`argosReady`); `self.google` is set only when `not self.argos` and googletrans
imported — the offline-to-online fallback happens at construction time. -/
def LinguaTranslatorW.make (argosReady googletransAvailable : Bool)
    (enToHu huToEn : String → Except Unit String)
    (gtr : String → String → String → Except Unit String) : LinguaTranslatorW :=
  ⟨argosReady, !argosReady && googletransAvailable, enToHu, huToEn, gtr⟩

/-- `translate` of `src/lingua.py` lines 87–110.  Any exception inside the
`try` is caught and collapses to `None`; in particular a throwing Argos call
returns `None` without ever touching googletrans. -/
def LinguaTranslatorW.translate (w : LinguaTranslatorW) (text src : String) :
    Option String × List Backend :=
  if text = "" then (none, [])
  else if w.argos then
    if pyStartswith src "en" then
      match w.enToHu text with
      | Except.ok t => (some t, [Backend.argosPrimary])
      | Except.error _ => (none, [Backend.argosPrimary])
    else if pyStartswith src "hu" then
      match w.huToEn text with
      | Except.ok t => (some t, [Backend.argosPrimary])
      | Except.error _ => (none, [Backend.argosPrimary])
    else (none, [])
  else if w.google then
    match w.gtr text src (if pyStartswith src "en" then "hu" else "en") with
    | Except.ok t => (some t, [Backend.googleSecondary])
    | Except.error _ => (none, [Backend.googleSecondary])
  else (none, [])

/-! The periodic transcription attempt of `_process_loop`
(`stt_worker.py` lines 119–139). -/
instance exceptDecEq {ε α : Type} [DecidableEq ε] [DecidableEq α] :
    DecidableEq (Except ε α)
  | Except.error a, Except.error b =>
    if h : a = b then isTrue (by rw [h])
    else isFalse (fun hc => by cases hc; exact h rfl)
  | Except.error _, Except.ok _ => isFalse (fun hc => by cases hc)
  | Except.ok _, Except.error _ => isFalse (fun hc => by cases hc)
  | Except.ok a, Except.ok b =>
    if h : a = b then isTrue (by rw [h])
    else isFalse (fun hc => by cases hc; exact h rfl)

/-- One `new_result.emit(original, src, translated or "")` (line 135). -/
structure EmittedEvent where
  original : String
  src : String
  translated : String
deriving DecidableEq

/-- One `self.model.transcribe(audio_for_model, language=..., task=...)` call,
recording the snapshot passed and the keyword arguments. -/
structure EngineCall where
  samples : List ℚ
  language : String
  task : String
deriving DecidableEq

/-- The external behavior resolved during one attempt: what the verbatim
`transcribe` call returns (`Except.error` = raises; the dict's `"text"` entry
may be missing or `None`, hence `Option`), what `translator.translate` returns
(it never raises, see the translator model), what the `task="translate"` call
returns, and the wall-clock duration of the whole attempt. -/
structure AttemptOracle where
  verbatim : Except String (Option String)
  translation : Option String
  direct : Except String (Option String)
  dur : ℚ
deriving DecidableEq

/-- The observable outcome of one attempt: the emitted result (if any), the
`error` notification (if the attempt raised), every engine call made, and the
text handed to `translator.translate` (if reached). -/
structure AttemptResult where
  emitted : Option EmittedEvent
  errMsg : Option String
  calls : List EngineCall
  translatorArg : Option String
deriving DecidableEq, Inhabited

/-- Lines 119–139 of `stt_worker.py`: the body of the `try` around one
transcription attempt, with `except Exception` collapsing a raise into an
`error` notification.  `model_lang == "hu"` runs verbatim transcription, then
the translator, then — when the translation is falsy — the direct-translate
fallback on the same snapshot; any other `model_lang` takes the English branch
with no fallback. -/
def runAttempt (modelLang : String) (snapshot : List ℚ) (o : AttemptOracle) :
    AttemptResult :=
  if modelLang = "hu" then
    match o.verbatim with
    | Except.error e => ⟨none, some ("Transcribe error: " ++ e),
        [⟨snapshot, "hu", "transcribe"⟩], none⟩
    | Except.ok txt =>
      let original := pyStrip (orEmpty txt)
      if strFalsy o.translation then
        match o.direct with
        | Except.error e => ⟨none, some ("Transcribe error: " ++ e),
            [⟨snapshot, "hu", "transcribe"⟩, ⟨snapshot, "hu", "translate"⟩],
            some original⟩
        | Except.ok t2 =>
          let tr := pyStrip (orEmpty t2)
          ⟨if original = "" then none else some ⟨original, "hu", tr⟩, none,
            [⟨snapshot, "hu", "transcribe"⟩, ⟨snapshot, "hu", "translate"⟩],
            some original⟩
      else
        ⟨if original = "" then none
          else some ⟨original, "hu", orEmpty o.translation⟩, none,
          [⟨snapshot, "hu", "transcribe"⟩], some original⟩
  else
    match o.verbatim with
    | Except.error e => ⟨none, some ("Transcribe error: " ++ e),
        [⟨snapshot, "en", "transcribe"⟩], none⟩
    | Except.ok txt =>
      let original := pyStrip (orEmpty txt)
      ⟨if original = "" then none
        else some ⟨original, "en", orEmpty o.translation⟩, none,
        [⟨snapshot, "en", "transcribe"⟩], some original⟩

/-! The worker loop `_process_loop` (`stt_worker.py` lines 96–150), as a step
function over iteration inputs.  Each iteration drains the blocks currently in
the queue, reads `time.monotonic()`, and possibly runs one attempt.  Time is
threaded explicitly: `tEnd` is the clock when the previous iteration finished
its timed work, and the clock read at line 115 this iteration is
`tEnd + gap`, where `gap` covers the iteration's `time.sleep` (at least 0.001 s)
plus drain time. -/
structure LoopConfig where
  modelLang : String
  maxSamples : ℕ
  interval : ℚ
deriving DecidableEq

structure LoopState where
  running : Bool
  buffer : List ℚ
  lastTranscribe : ℚ
  tEnd : ℚ
deriving DecidableEq

structure IterInput where
  blocks : List (List Int)
  gap : ℚ
  oracle : AttemptOracle
deriving DecidableEq

/-- A transcription invocation: when it started (the `now` stored into
`last_transcribe`), how long it took, and what it did. -/
structure FiredRecord where
  start : ℚ
  dur : ℚ
  result : AttemptResult
deriving DecidableEq, Inhabited

/-- The inner drain loop (lines 104–113): append every available block. -/
def drainInto (maxSamples : ℕ) (buffer : List ℚ) (blocks : List (List Int)) :
    List ℚ :=
  blocks.foldl (fun b blk => RollingBuffer.append maxSamples b (blockToFloat blk))
    buffer

/-- The guard at line 116:
`(now - last_transcribe) >= self.transcribe_interval and
buffer.shape[0] > SAMPLE_RATE * 0.5`, where `now = s.tEnd + inp.gap` is the
`time.monotonic()` read at line 115 and `buf` the drained buffer. -/
def triggerCond (cfg : LoopConfig) (s : LoopState) (inp : IterInput)
    (buf : List ℚ) : Prop :=
  cfg.interval ≤ (s.tEnd + inp.gap) - s.lastTranscribe ∧
    (SAMPLE_RATE : ℚ) * (1 / 2) < (buf.length : ℚ)

instance (cfg : LoopConfig) (s : LoopState) (inp : IterInput) (buf : List ℚ) :
    Decidable (triggerCond cfg s inp buf) :=
  inferInstanceAs (Decidable (And _ _))

/-- One iteration of the `while self._running` body (lines 102–150): drain,
read the clock, and if `now - last_transcribe >= transcribe_interval` and the
buffer holds strictly more than `SAMPLE_RATE * 0.5` samples, snapshot the
buffer, set `last_transcribe = now`, and run one attempt. -/
def loopIter (cfg : LoopConfig) (s : LoopState) (inp : IterInput) :
    LoopState × Option FiredRecord :=
  if triggerCond cfg s inp (drainInto cfg.maxSamples s.buffer inp.blocks) then
    (⟨s.running, drainInto cfg.maxSamples s.buffer inp.blocks, s.tEnd + inp.gap,
        s.tEnd + inp.gap + inp.oracle.dur⟩,
      some ⟨s.tEnd + inp.gap, inp.oracle.dur,
        runAttempt cfg.modelLang (drainInto cfg.maxSamples s.buffer inp.blocks)
          inp.oracle⟩)
  else
    (⟨s.running, drainInto cfg.maxSamples s.buffer inp.blocks,
        s.lastTranscribe, s.tEnd + inp.gap⟩, none)

/-- The loop itself: process iteration inputs while `self._running` holds. -/
def processLoop (cfg : LoopConfig) : LoopState → List IterInput →
    LoopState × List (Option FiredRecord)
  | s, [] => (s, [])
  | s, inp :: rest =>
    if s.running then
      let p := loopIter cfg s inp
      let q := processLoop cfg p.1 rest
      (q.1, p.2 :: q.2)
    else (s, [])

/-- The transcription invocations of a run, in order. -/
def firedOf (l : List (Option FiredRecord)) : List FiredRecord := l.filterMap id

/-- State at loop entry (lines 97–99): empty buffer, `last_transcribe = 0.0`,
and the monotonic clock at `t0`. -/
def initState (t0 : ℚ) : LoopState := ⟨true, [], 0, t0⟩

/-! The `start`/`stop` lifecycle (`stt_worker.py` lines 64–94). -/

/-- Observable worker state: the `_running` flag, the audio stream
(`none` = no `InputStream` object; `some started` = an object whose `start()`
did (`true`) or did not (`false`) run), whether the worker thread was started,
and the `status`/`error` notifications emitted so far, in order. -/
structure WorkerState where
  running : Bool
  stream : Option Bool
  workerThread : Bool
  statuses : List String
  errors : List String
deriving DecidableEq

/-- State after `__init__` (lines 38–41): not running, no stream, no thread. -/
def initWorker : WorkerState := ⟨false, none, false, [], []⟩

/-- `start` (lines 64–83).  `ctor` is the outcome of the
`sd.InputStream(...)` constructor, `strt` of `self._stream.start()`; an
`Except.error` is the raised exception's message.  If `_running` is already
set, return immediately.  On failure, emit the error, clear `_running`, and
return without starting the worker thread; the constructor raising leaves
`self._stream` unchanged, `start()` raising leaves the constructed-but-unstarted
stream behind. -/
def STTWorker.start (ctor strt : Except String Unit) (s : WorkerState) : WorkerState :=
  if s.running then s
  else
    match ctor with
    | Except.error e =>
        { s with running := false,
                 errors := s.errors ++ ["Audio input stream error: " ++ e] }
    | Except.ok _ =>
      match strt with
      | Except.error e =>
          { s with running := false, stream := some false,
                   errors := s.errors ++ ["Audio input stream error: " ++ e] }
      | Except.ok _ =>
          { s with running := true, stream := some true, workerThread := true,
                   statuses := s.statuses ++ ["Listening (streaming)..."] }

/-- `stop` (lines 85–94): clear `_running`; if a stream exists, stop and close
it and set `self._stream = None` (any exception in that block is swallowed by
`except Exception: pass`; stopping/closing the stream objects used here does
not raise); always emit the `"Stopped."` status. -/
def STTWorker.stop (s : WorkerState) : WorkerState :=
  { s with running := false, stream := none,
           statuses := s.statuses ++ ["Stopped."] }

/-! Concrete two-invocation trace for the cadence claim: `transcribe_interval`
is 1 s; the first invocation starts at `t = 2` and takes 0.9 s (ending at 2.9);
the loop sleeps 0.1 s and the second invocation starts at `t = 3` — only 0.1 s
after the end of the previous call. -/
def c2oracle1 : AttemptOracle := ⟨Except.ok (some "hi"), some "szia", Except.ok none, 9/10⟩

def c2oracle2 : AttemptOracle := ⟨Except.ok (some "hi"), some "szia", Except.ok none, 1/2⟩

def c2block : List Int := List.replicate 8001 0

def c2cfg : LoopConfig := ⟨"en", 96000, 1⟩

def c2inputs : List IterInput :=
  [⟨[c2block], 2, c2oracle1⟩, ⟨[], 1/10, c2oracle2⟩]

def c2fired : List FiredRecord := firedOf (processLoop c2cfg (initState 0) c2inputs).2

def c2s1 : LoopState := ⟨true, blockToFloat c2block, 2, 2 + 9/10⟩

def c2f1 : FiredRecord := ⟨2, 9/10, runAttempt "en" (blockToFloat c2block) c2oracle1⟩

def c2s2 : LoopState := ⟨true, blockToFloat c2block, 3, 3 + 1/2⟩

def c2f2 : FiredRecord := ⟨3, 1/2, runAttempt "en" (blockToFloat c2block) c2oracle2⟩

/-! Boundary trace for the trigger threshold: the buffer holds exactly 8,000
samples (exactly 0.5 s at 16 kHz) and the interval has long elapsed. -/
def c3buffer : List ℚ := List.replicate 8000 0

def c3cfg : LoopConfig := ⟨"en", 96000, 1⟩

def c3state : LoopState := ⟨true, c3buffer, 0, 100⟩

def c3oracle : AttemptOracle := ⟨Except.ok (some "hi"), none, Except.ok none, 1⟩

def c3inp : IterInput := ⟨[], 0, c3oracle⟩

/-! C4: the handoff queue. -/
def c4blocks : List (List Int) := List.replicate 100000 []

def c4queue0 : PyQueue (List Int) := ⟨audioQueueMaxsize, []⟩

def c4final : PyQueue (List Int) := c4blocks.foldl audioCallback c4queue0

/-! C5: the translation fallback chain. -/
def c5argosThrow : String → Except Unit String := fun _ => Except.error ()

def c5gtrOk : String → String → String → Except Unit String :=
  fun t _ _ => Except.ok ("EN " ++ t)

/-- The `lingua.py` wrapper when Argos initializes successfully AND googletrans
is installed: per lines 82–85, `self.google` stays `False`. -/
def c5wrapper : LinguaTranslatorW :=
  LinguaTranslatorW.make true true c5argosThrow c5argosThrow c5gtrOk

def c6oracle : AttemptOracle :=
  ⟨Except.ok (some " szia "), none, Except.ok (some " hi "), 1⟩

def c7oracle : AttemptOracle :=
  ⟨Except.ok (some "hello"), none, Except.error "boom", 1⟩

def c7okOracle : AttemptOracle :=
  ⟨Except.ok (some " hi "), some "szia", Except.ok none, 1⟩

def c9oracle : AttemptOracle := ⟨Except.error "boom", none, Except.ok none, 1⟩

def c9state : LoopState := ⟨true, List.replicate 8001 0, 0, 100⟩

def c9inp : IterInput := ⟨[], 0, c9oracle⟩

def c9cfg : LoopConfig := ⟨"hu", 96000, 1⟩

def c10state : WorkerState := ⟨true, some true, true, ["Listening (streaming)..."], []⟩

theorem takeRight_length (n : ℕ) (l : List α) :
    (takeRight n l).length = l.length - (l.length - n) := by
  simp [takeRight]

theorem takeRight_length_le (n : ℕ) (l : List α) : (takeRight n l).length ≤ n := by
  rw [takeRight_length]; omega

theorem takeRight_eq_of_le {n : ℕ} {l : List α} (h : l.length ≤ n) :
    takeRight n l = l := by
  unfold takeRight
  rw [Nat.sub_eq_zero_of_le h, List.drop_zero]

theorem RollingBuffer.append_eq_takeRight (m : ℕ) (buf blk : List ℚ) :
    RollingBuffer.append m buf blk = takeRight m (buf ++ blk) := by
  show (if m < (buf ++ blk).length then takeRight m (buf ++ blk) else buf ++ blk) =
    takeRight m (buf ++ blk)
  by_cases h : m < (buf ++ blk).length
  · rw [if_pos h]
  · rw [if_neg h, takeRight_eq_of_le (by omega)]

theorem takeRight_append_of_le (m : ℕ) (p x : List α) (h : m ≤ x.length) :
    takeRight m (p ++ x) = takeRight m x := by
  unfold takeRight
  rw [List.length_append]
  have harith : p.length + x.length - m = p.length + (x.length - m) := by omega
  rw [harith, List.drop_append_eq_append_drop]
  have h1 : p.length + (x.length - m) - p.length = x.length - m := by omega
  rw [List.drop_eq_nil_of_le (by omega), h1, List.nil_append]

theorem takeRight_takeRight_append (m : ℕ) (a b : List α) :
    takeRight m (takeRight m a ++ b) = takeRight m (a ++ b) := by
  by_cases h : a.length ≤ m
  · rw [takeRight_eq_of_le h]
  · have hlen : (takeRight m a).length = m := by rw [takeRight_length]; omega
    conv_rhs => rw [← List.take_append_drop (a.length - m) a]
    rw [List.append_assoc]
    rw [takeRight_append_of_le m _ (List.drop (a.length - m) a ++ b)
      (by rw [List.length_append, List.length_drop]; omega)]
    rfl

theorem RollingBuffer.appendAll_eq (m : ℕ) :
    ∀ (blocks : List (List ℚ)) (buf : List ℚ),
      RollingBuffer.appendAll m (takeRight m buf) blocks =
        takeRight m (buf ++ blocks.flatten) := by
  intro blocks
  induction blocks with
  | nil => intro buf; simp [RollingBuffer.appendAll]
  | cons b bs ih =>
    intro buf
    unfold RollingBuffer.appendAll at ih ⊢
    rw [List.foldl_cons, RollingBuffer.append_eq_takeRight,
      takeRight_takeRight_append, ih (buf ++ b), List.flatten_cons,
      List.append_assoc]

theorem RollingBuffer.appendAll_nil_eq (m : ℕ) (blocks : List (List ℚ)) :
    RollingBuffer.appendAll m [] blocks = takeRight m blocks.flatten := by
  have h := RollingBuffer.appendAll_eq m blocks []
  simpa [takeRight] using h

/-- C1: for every sequence of `append` operations on the rolling buffer
(starting from the empty buffer `np.zeros((0,))` of `_process_loop`), after each
append the buffer's length is at most the capacity `max_samples`, and the buffer
always equals the most recent `max_samples` samples of everything appended, in
order.  The capacity for `buffer_seconds = 6.0` is `int(6.0 * 16000) = 96000`,
and appending a single 100,000-sample block to an empty buffer of capacity
96,000 leaves exactly the most recent 96,000 samples (the block minus its first
4,000 samples). -/
theorem C1_rolling_buffer_bound_and_tail (cap : ℕ) (blocks : List (List ℚ))
    (block : List ℚ) (hlen : block.length = 100000) :
    (∀ i : ℕ, (RollingBuffer.appendAll cap [] (blocks.take i)).length ≤ cap) ∧
    RollingBuffer.appendAll cap [] blocks = takeRight cap blocks.flatten ∧
    maxSamplesFor 6 = 96000 ∧
    RollingBuffer.append 96000 [] block = block.drop 4000 ∧
    (RollingBuffer.append 96000 [] block).length = 96000 := by
  refine ⟨?_, RollingBuffer.appendAll_nil_eq cap blocks,
    by norm_num [maxSamplesFor, SAMPLE_RATE]; rfl, ?_, ?_⟩
  · intro i
    rw [RollingBuffer.appendAll_nil_eq]
    exact takeRight_length_le _ _
  · rw [RollingBuffer.append_eq_takeRight]
    unfold takeRight
    simp [hlen]
  · rw [RollingBuffer.append_eq_takeRight]
    rw [takeRight_length]
    simp [hlen]

/-- Witness for C1 at a concrete 100,000-sample block. -/
theorem C1_witness :
    (List.replicate 100000 (0 : ℚ)).length = 100000 ∧
    ((∀ i : ℕ,
        (RollingBuffer.appendAll 96000 [] (([] : List (List ℚ)).take i)).length ≤ 96000) ∧
      RollingBuffer.appendAll 96000 [] [] = takeRight 96000 ([] : List (List ℚ)).flatten ∧
      maxSamplesFor 6 = 96000 ∧
      RollingBuffer.append 96000 [] (List.replicate 100000 (0 : ℚ)) =
        (List.replicate 100000 (0 : ℚ)).drop 4000 ∧
      (RollingBuffer.append 96000 [] (List.replicate 100000 (0 : ℚ))).length = 96000) :=
  ⟨List.length_replicate 100000 (0 : ℚ),
   C1_rolling_buffer_bound_and_tail 96000 [] _ (List.length_replicate 100000 (0 : ℚ))⟩

theorem audioCallback_unbounded {α : Type} (q : PyQueue α) (x : α)
    (h : q.maxsize = 0) : audioCallback q x = ⟨q.maxsize, q.items ++ [x]⟩ := by
  simp [audioCallback, putNowait, h]

theorem foldl_audioCallback_unbounded {α : Type} :
    ∀ (l : List α) (q : PyQueue α), q.maxsize = 0 →
      l.foldl audioCallback q = ⟨0, q.items ++ l⟩ := by
  intro l
  induction l with
  | nil => intro q h; cases q; simp_all
  | cons x xs ih =>
    intro q h
    rw [List.foldl_cons, audioCallback_unbounded q x h, ih ⟨q.maxsize, q.items ++ [x]⟩ h]
    simp [h]

/-! Basic facts about the loop step. -/
theorem loopIter_running (cfg : LoopConfig) (s : LoopState) (inp : IterInput) :
    (loopIter cfg s inp).1.running = s.running := by
  unfold loopIter
  by_cases hc : triggerCond cfg s inp (drainInto cfg.maxSamples s.buffer inp.blocks)
  · rw [if_pos hc]
  · rw [if_neg hc]

theorem loopIter_buffer (cfg : LoopConfig) (s : LoopState) (inp : IterInput) :
    (loopIter cfg s inp).1.buffer = drainInto cfg.maxSamples s.buffer inp.blocks := by
  unfold loopIter
  by_cases hc : triggerCond cfg s inp (drainInto cfg.maxSamples s.buffer inp.blocks)
  · rw [if_pos hc]
  · rw [if_neg hc]

theorem loopIter_fired (cfg : LoopConfig) (s : LoopState) (inp : IterInput)
    (f : FiredRecord) (h : (loopIter cfg s inp).2 = some f) :
    f.start = s.tEnd + inp.gap ∧
    f.dur = inp.oracle.dur ∧
    f.result = runAttempt cfg.modelLang
      (drainInto cfg.maxSamples s.buffer inp.blocks) inp.oracle ∧
    (loopIter cfg s inp).1.lastTranscribe = f.start ∧
    (loopIter cfg s inp).1.tEnd = f.start + f.dur ∧
    s.lastTranscribe + cfg.interval ≤ f.start := by
  unfold loopIter at h ⊢
  by_cases hc : triggerCond cfg s inp (drainInto cfg.maxSamples s.buffer inp.blocks)
  · rw [if_pos hc] at h ⊢
    cases h
    refine ⟨rfl, rfl, rfl, rfl, rfl, ?_⟩
    have h1 := hc.1
    dsimp only
    linarith
  · rw [if_neg hc] at h
    cases h

theorem loopIter_not_fired (cfg : LoopConfig) (s : LoopState) (inp : IterInput)
    (h : (loopIter cfg s inp).2 = none) :
    (loopIter cfg s inp).1.lastTranscribe = s.lastTranscribe ∧
    (loopIter cfg s inp).1.tEnd = s.tEnd + inp.gap := by
  unfold loopIter at h ⊢
  by_cases hc : triggerCond cfg s inp (drainInto cfg.maxSamples s.buffer inp.blocks)
  · rw [if_pos hc] at h
    cases h
  · rw [if_neg hc] at h ⊢
    exact ⟨rfl, rfl⟩

theorem processLoop_cons_of_running (cfg : LoopConfig) (s : LoopState)
    (inp : IterInput) (rest : List IterInput) (h : s.running = true) :
    processLoop cfg s (inp :: rest) =
      ((processLoop cfg (loopIter cfg s inp).1 rest).1,
        (loopIter cfg s inp).2 :: (processLoop cfg (loopIter cfg s inp).1 rest).2) := by
  rw [processLoop, if_pos h]

theorem firedOf_cons_some (f : FiredRecord) (l : List (Option FiredRecord)) :
    firedOf (some f :: l) = f :: firedOf l := by
  simp [firedOf]

theorem firedOf_cons_none (l : List (Option FiredRecord)) :
    firedOf (none :: l) = firedOf l := by
  simp [firedOf]

/-- Lower bound on the first invocation of a run: it starts no earlier than
`last_transcribe + interval` and no earlier than the running clock plus the
minimal sleep. -/
theorem fired_head_lb (cfg : LoopConfig) (minGap : ℚ) (h0 : 0 ≤ minGap) :
    ∀ (inps : List IterInput) (s : LoopState),
      (∀ inp ∈ inps, minGap ≤ inp.gap) →
      ∀ f ∈ (firedOf (processLoop cfg s inps).2).head?,
        s.lastTranscribe + cfg.interval ≤ f.start ∧ s.tEnd + minGap ≤ f.start := by
  intro inps
  induction inps with
  | nil =>
    intro s _ f hf
    simp [processLoop, firedOf] at hf
  | cons inp rest ih =>
    intro s hg f hf
    by_cases hrun : s.running = true
    · rw [processLoop_cons_of_running cfg s inp rest hrun] at hf
      cases hfi : (loopIter cfg s inp).2 with
      | some f0 =>
        rw [hfi] at hf
        dsimp only at hf
        rw [firedOf_cons_some] at hf
        simp only [List.head?_cons, Option.mem_def, Option.some.injEq] at hf
        obtain ⟨hstart, _, _, _, _, hint⟩ := loopIter_fired cfg s inp f0 hfi
        rw [← hf]
        constructor
        · exact hint
        · rw [hstart]
          have : minGap ≤ inp.gap := hg inp (List.mem_cons_self inp rest)
          linarith
      | none =>
        rw [hfi] at hf
        dsimp only at hf
        rw [firedOf_cons_none] at hf
        have hrest : ∀ i ∈ rest, minGap ≤ i.gap := fun i hi =>
          hg i (List.mem_cons_of_mem inp hi)
        obtain ⟨hA, hB⟩ := ih (loopIter cfg s inp).1 hrest f hf
        obtain ⟨hlast, htend⟩ := loopIter_not_fired cfg s inp hfi
        rw [hlast] at hA
        rw [htend] at hB
        have : minGap ≤ inp.gap := hg inp (List.mem_cons_self inp rest)
        exact ⟨hA, by linarith⟩
    · rw [processLoop, if_neg hrun] at hf
      simp [firedOf] at hf

/-- Consecutive invocations: each starts at least `interval` after the start of
the previous one, and strictly after the previous one ended (its end plus the
minimal sleep). -/
theorem fired_chain (cfg : LoopConfig) (minGap : ℚ) (h0 : 0 ≤ minGap) :
    ∀ (inps : List IterInput) (s : LoopState),
      (∀ inp ∈ inps, minGap ≤ inp.gap) →
      List.Chain' (fun f g => f.start + cfg.interval ≤ g.start ∧
          f.start + f.dur + minGap ≤ g.start)
        (firedOf (processLoop cfg s inps).2) := by
  intro inps
  induction inps with
  | nil =>
    intro s _
    simp [processLoop, firedOf]
  | cons inp rest ih =>
    intro s hg
    have hrest : ∀ i ∈ rest, minGap ≤ i.gap := fun i hi =>
      hg i (List.mem_cons_of_mem inp hi)
    by_cases hrun : s.running = true
    · rw [processLoop_cons_of_running cfg s inp rest hrun]
      cases hfi : (loopIter cfg s inp).2 with
      | some f0 =>
        dsimp only
        rw [firedOf_cons_some]
        rw [List.chain'_cons']
        refine ⟨?_, ih (loopIter cfg s inp).1 hrest⟩
        intro g hgmem
        obtain ⟨hA, hB⟩ :=
          fired_head_lb cfg minGap h0 rest (loopIter cfg s inp).1 hrest g hgmem
        obtain ⟨_, _, _, hlast, htend, _⟩ := loopIter_fired cfg s inp f0 hfi
        rw [hlast] at hA
        rw [htend] at hB
        exact ⟨hA, hB⟩
      | none =>
        dsimp only
        rw [firedOf_cons_none]
        exact ih (loopIter cfg s inp).1 hrest
    · rw [processLoop, if_neg hrun]
      simp [firedOf]

theorem processLoop_nil (cfg : LoopConfig) (s : LoopState) :
    processLoop cfg s [] = (s, []) := rfl

theorem blockToFloat_length (l : List Int) : (blockToFloat l).length = l.length := by
  rw [blockToFloat, List.length_map]

theorem c2block_length : (blockToFloat c2block).length = 8001 := by
  rw [blockToFloat_length, c2block, List.length_replicate]

theorem c2block_float_length : ((blockToFloat c2block).length : ℚ) = 8001 := by
  rw [c2block_length]
  norm_num

theorem c2_drain1 :
    drainInto c2cfg.maxSamples (initState 0).buffer
      ((⟨[c2block], 2, c2oracle1⟩ : IterInput)).blocks = blockToFloat c2block := by
  simp only [initState]
  simp only [drainInto, List.foldl_cons, List.foldl_nil]
  rw [RollingBuffer.append_eq_takeRight, List.nil_append]
  apply takeRight_eq_of_le
  rw [c2block_length]
  norm_num [c2cfg]

theorem c2_iter1 :
    loopIter c2cfg (initState 0) ⟨[c2block], 2, c2oracle1⟩ = (c2s1, some c2f1) := by
  have hcond : triggerCond c2cfg (initState 0) ⟨[c2block], 2, c2oracle1⟩
      (drainInto c2cfg.maxSamples (initState 0).buffer
        ((⟨[c2block], 2, c2oracle1⟩ : IterInput)).blocks) := by
    unfold triggerCond
    rw [c2_drain1, c2block_float_length]
    simp only [initState, c2cfg]
    norm_num [SAMPLE_RATE]
  unfold loopIter
  rw [if_pos hcond, c2_drain1]
  simp only [initState, c2cfg, c2s1, c2f1, c2oracle1, Prod.mk.injEq,
    LoopState.mk.injEq, Option.some.injEq, FiredRecord.mk.injEq]
  norm_num

theorem c2_drain2 :
    drainInto c2cfg.maxSamples c2s1.buffer ((⟨[], 1/10, c2oracle2⟩ : IterInput)).blocks =
      blockToFloat c2block := by
  simp [drainInto, c2s1]

theorem c2_iter2 :
    loopIter c2cfg c2s1 ⟨[], 1/10, c2oracle2⟩ = (c2s2, some c2f2) := by
  have hcond : triggerCond c2cfg c2s1 ⟨[], 1/10, c2oracle2⟩
      (drainInto c2cfg.maxSamples c2s1.buffer
        ((⟨[], 1/10, c2oracle2⟩ : IterInput)).blocks) := by
    unfold triggerCond
    rw [c2_drain2, c2block_float_length]
    simp only [c2s1, c2cfg]
    norm_num [SAMPLE_RATE]
  unfold loopIter
  rw [if_pos hcond, c2_drain2]
  simp only [c2s1, c2cfg, c2s2, c2f2, c2oracle2, Prod.mk.injEq,
    LoopState.mk.injEq, Option.some.injEq, FiredRecord.mk.injEq]
  norm_num

theorem c2_run : processLoop c2cfg (initState 0) c2inputs = (c2s2, [some c2f1, some c2f2]) := by
  show processLoop c2cfg (initState 0)
    [⟨[c2block], 2, c2oracle1⟩, ⟨[], 1/10, c2oracle2⟩] = (c2s2, [some c2f1, some c2f2])
  rw [processLoop_cons_of_running _ _ _ _ rfl, c2_iter1]
  dsimp only
  rw [processLoop_cons_of_running _ _ _ _ rfl, c2_iter2]
  dsimp only
  rw [processLoop_nil]

theorem c2fired_eq : c2fired = [c2f1, c2f2] := by
  rw [c2fired, c2_run]
  simp [firedOf]

/-- C2 counterexample: in the trace above both invocations fire
(starts 2 and 3, durations 0.9 and 0.5), and the second invocation starts
0.1 s after the end of the first — strictly less than
`transcribe_interval = 1` after it, refuting "the second invocation starts no
less than transcribe_interval after the end of the previous invocation".
The timer is reset to the clock value sampled *before* the call
(`last_transcribe = now` at line 118 precedes `model.transcribe`), not after
it completes. -/
theorem C2_counterexample :
    c2fired.map (fun f => (f.start, f.dur)) = [(2, 9/10), (3, 1/2)] ∧
    (c2fired.getD 1 default).start <
      (c2fired.getD 0 default).start + (c2fired.getD 0 default).dur +
        c2cfg.interval := by
  rw [c2fired_eq]
  constructor
  · simp [c2f1, c2f2]
  · simp only [List.getD, c2f1, c2f2, c2cfg]
    norm_num

/-- C2 (amended): with at least the 1 ms sleep of lines 147–150 between
iterations, consecutive transcription invocations are at least
`transcribe_interval` apart measured start-to-start, and each invocation starts
strictly after the previous one ended (so a running call is never re-triggered);
but the gap measured from the END of the previous call can be smaller than
`transcribe_interval`, because `last_transcribe` is set to the clock value read
before the call starts. -/
theorem C2_cadence_from_call_start (t0 : ℚ) (cfg : LoopConfig)
    (inputs : List IterInput)
    (hg : ∀ inp ∈ inputs, (1 : ℚ)/1000 ≤ inp.gap) :
    List.Chain' (fun f g => f.start + cfg.interval ≤ g.start ∧
        f.start + f.dur + 1/1000 ≤ g.start)
      (firedOf (processLoop cfg (initState t0) inputs).2) :=
  fired_chain cfg (1/1000) (by norm_num) inputs (initState t0) hg

/-- Witness for the amended C2 on the concrete two-invocation trace. -/
theorem C2_witness :
    (∀ inp ∈ c2inputs, (1 : ℚ)/1000 ≤ inp.gap) ∧
    List.Chain' (fun f g => f.start + c2cfg.interval ≤ g.start ∧
        f.start + f.dur + 1/1000 ≤ g.start)
      (firedOf (processLoop c2cfg (initState 0) c2inputs).2) :=
  ⟨by norm_num [c2inputs], C2_cadence_from_call_start 0 c2cfg c2inputs (by norm_num [c2inputs])⟩

theorem c3_drain : drainInto c3cfg.maxSamples c3state.buffer c3inp.blocks = c3buffer :=
  rfl

/-- C3 counterexample: with exactly 8,000 buffered samples (exactly 0.5 s of
audio, so the claim's "≥ 0.5 s" condition holds) and the elapsed time far past
`transcribe_interval`, no transcription attempt occurs, because line 116 of
`stt_worker.py` requires `buffer.shape[0] > SAMPLE_RATE * 0.5` — strictly
greater than 8,000. -/
theorem C3_counterexample :
    c3cfg.interval ≤ (c3state.tEnd + c3inp.gap) - c3state.lastTranscribe ∧
    (SAMPLE_RATE : ℚ) * (1 / 2) ≤ (((loopIter c3cfg c3state c3inp).1.buffer.length : ℕ) : ℚ) ∧
    (loopIter c3cfg c3state c3inp).2 = none := by
  have hlen : (loopIter c3cfg c3state c3inp).1.buffer.length = 8000 := by
    rw [loopIter_buffer, c3_drain, c3buffer, List.length_replicate]
  have hnc : ¬ triggerCond c3cfg c3state c3inp
      (drainInto c3cfg.maxSamples c3state.buffer c3inp.blocks) := by
    intro hc
    have h2 := hc.2
    rw [c3_drain, c3buffer, List.length_replicate] at h2
    norm_num [SAMPLE_RATE] at h2
  refine ⟨?_, ?_, ?_⟩
  · simp only [c3cfg, c3state, c3inp]
    norm_num
  · rw [hlen]
    norm_num [SAMPLE_RATE]
  · unfold loopIter
    rw [if_neg hnc]

/-- C3 (amended): in each loop iteration, a transcription attempt occurs if
and only if the elapsed time since the last attempt is at least
`transcribe_interval` and the post-drain buffer holds STRICTLY more than 0.5 s
of audio (strictly more than `SAMPLE_RATE / 2 = 8000` samples at 16 kHz); in
particular at 8,000 samples or fewer — including every buffer strictly below
0.5 s — no attempt occurs. -/
theorem C3_trigger_iff (cfg : LoopConfig) (s : LoopState) (inp : IterInput) :
    (loopIter cfg s inp).2.isSome = true ↔
      (cfg.interval ≤ (s.tEnd + inp.gap) - s.lastTranscribe ∧
        SAMPLE_RATE / 2 < (loopIter cfg s inp).1.buffer.length) := by
  rw [loopIter_buffer]
  by_cases hc : triggerCond cfg s inp (drainInto cfg.maxSamples s.buffer inp.blocks)
  · unfold loopIter
    rw [if_pos hc]
    simp only [Option.isSome_some, true_iff]
    refine ⟨hc.1, ?_⟩
    have h2 := hc.2
    have : ((SAMPLE_RATE / 2 : ℕ) : ℚ) < ((drainInto cfg.maxSamples s.buffer inp.blocks).length : ℚ) := by
      norm_num [SAMPLE_RATE] at h2 ⊢
      exact h2
    exact_mod_cast this
  · unfold loopIter
    rw [if_neg hc]
    simp only [Option.isSome_none, Bool.false_eq_true, false_iff]
    intro hAB
    apply hc
    refine ⟨hAB.1, ?_⟩
    have h2 := hAB.2
    have : ((SAMPLE_RATE / 2 : ℕ) : ℚ) < ((drainInto cfg.maxSamples s.buffer inp.blocks).length : ℚ) := by
      exact_mod_cast h2
    norm_num [SAMPLE_RATE] at this ⊢
    exact this

/-- C4 counterexample: the worker's queue is `queue.Queue()`, whose default
`maxsize` is 0, which Python defines as an INFINITE queue.  After 100,000
audio-callback deliveries the queue holds all 100,000 blocks — there is no
bound its length stays under — and yet another `put_nowait` still succeeds
(the queue is never full, so no block is ever dropped and the
`except queue.Full` handler is unreachable), refuting "the queue is bounded"
and "the newest block is dropped when the queue is full". -/
theorem C4_counterexample :
    audioQueueMaxsize = 0 ∧
    c4final.items.length = 100000 ∧
    putNowait c4final [1] = Except.ok ⟨0, c4final.items ++ [[1]]⟩ := by
  have hfold : c4final = ⟨0, ([] : List (List Int)) ++ c4blocks⟩ :=
    foldl_audioCallback_unbounded c4blocks c4queue0 rfl
  have hms : c4final.maxsize = 0 := by rw [hfold]
  refine ⟨rfl, ?_, ?_⟩
  · rw [hfold]
    show ([] ++ c4blocks).length = 100000
    rw [List.nil_append, c4blocks, List.length_replicate]
  · simp [putNowait, hms]

/-- C4 (amended): the handoff queue is created with `queue.Queue()`'s default
`maxsize = 0`, i.e. unbounded.  The audio callback's enqueue never blocks and
never raises: `put_nowait` always succeeds (a `queue.Full` overflow would be
silently swallowed by the `except` handler, but cannot occur on an unbounded
queue), every block is appended at the tail in arrival order, and the queue
length grows by one on every delivery without any bound. -/
theorem C4_unbounded_queue_never_drops (q : PyQueue (List Int)) (b : List Int)
    (h : q.maxsize = audioQueueMaxsize) :
    putNowait q b = Except.ok ⟨q.maxsize, q.items ++ [b]⟩ ∧
    audioCallback q b = ⟨q.maxsize, q.items ++ [b]⟩ ∧
    (audioCallback q b).items.length = q.items.length + 1 := by
  have h0 : q.maxsize = 0 := h
  refine ⟨?_, audioCallback_unbounded q b h0, ?_⟩
  · simp [putNowait, h0]
  · rw [audioCallback_unbounded q b h0]
    simp

/-- Witness for the amended C4 at a concrete one-element queue. -/
theorem C4_witness :
    (⟨audioQueueMaxsize, [[1]]⟩ : PyQueue (List Int)).maxsize = audioQueueMaxsize ∧
    (putNowait (⟨audioQueueMaxsize, [[1]]⟩ : PyQueue (List Int)) [2] =
        Except.ok ⟨(⟨audioQueueMaxsize, [[1]]⟩ : PyQueue (List Int)).maxsize,
          (⟨audioQueueMaxsize, [[1]]⟩ : PyQueue (List Int)).items ++ [[2]]⟩ ∧
      audioCallback (⟨audioQueueMaxsize, [[1]]⟩ : PyQueue (List Int)) [2] =
        ⟨(⟨audioQueueMaxsize, [[1]]⟩ : PyQueue (List Int)).maxsize,
          (⟨audioQueueMaxsize, [[1]]⟩ : PyQueue (List Int)).items ++ [[2]]⟩ ∧
      (audioCallback (⟨audioQueueMaxsize, [[1]]⟩ : PyQueue (List Int)) [2]).items.length =
        (⟨audioQueueMaxsize, [[1]]⟩ : PyQueue (List Int)).items.length + 1) :=
  ⟨rfl, C4_unbounded_queue_never_drops ⟨audioQueueMaxsize, [[1]]⟩ [2] rfl⟩

/-- C5 counterexample: with Argos configured but throwing on every call and
googletrans installed and working, `translate("hello", "hu")` returns `None`
having invoked only the primary — the secondary is NOT tried for that call
(it was never even enabled, since `self.google` is set only when Argos failed
to initialize), refuting "if it throws, tries the secondary translator for
that same call". -/
theorem C5_counterexample :
    c5wrapper.google = false ∧
    c5wrapper.translate "hello" "hu" = (none, [Backend.argosPrimary]) := by
  constructor
  · rfl
  · decide

/-- C5 (amended): the offline-to-online fallback happens at construction time,
not per call.  If the primary (Argos) failed to initialize and googletrans is
installed, the secondary is used for every nonempty call; if the primary is
configured, the secondary is never invoked, and a call on which the primary
throws returns null without trying the secondary; if neither is configured the
result is null with no backend invoked.  The modules variant used by the worker
(`src/modules/translator.py`) has no offline primary at all: googletrans, when
available, is used for every nonempty call.  In every case `translate` is total
(never raises): all backend exceptions collapse to null. -/
theorem C5_fallback_at_construction (w : LinguaTranslatorW) (m : ModulesTranslatorW)
    (text src : String) (htext : ¬ text = "") :
    (∀ (eh he : String → Except Unit String)
        (g : String → String → String → Except Unit String),
      (LinguaTranslatorW.make false true eh he g).argos = false ∧
      (LinguaTranslatorW.make false true eh he g).google = true) ∧
    (∀ (gta : Bool) (eh he : String → Except Unit String)
        (g : String → String → String → Except Unit String),
      (LinguaTranslatorW.make true gta eh he g).argos = true ∧
      (LinguaTranslatorW.make true gta eh he g).google = false) ∧
    (w.argos = false → w.google = true →
      w.translate text src =
        (match w.gtr text src (if pyStartswith src "en" then "hu" else "en") with
         | Except.ok t => (some t, [Backend.googleSecondary])
         | Except.error _ => (none, [Backend.googleSecondary]))) ∧
    (w.argos = true → Backend.googleSecondary ∉ (w.translate text src).2) ∧
    (w.argos = true → pyStartswith src "en" = false → pyStartswith src "hu" = true →
      w.huToEn text = Except.error () →
      w.translate text src = (none, [Backend.argosPrimary])) ∧
    (w.argos = false → w.google = false → w.translate text src = (none, [])) ∧
    (m.google = false → m.translate text src = (none, [])) ∧
    (m.google = true →
      m.translate text src =
        (match m.gtr text src (if pyStartswith src "en" then "hu" else "en") with
         | Except.ok t => (some t, [Backend.googleSecondary])
         | Except.error _ => (none, [Backend.googleSecondary]))) := by
  refine ⟨fun eh he g => ⟨rfl, rfl⟩, fun gta eh he g => ⟨rfl, by simp [LinguaTranslatorW.make]⟩,
    ?_, ?_, ?_, ?_, ?_, ?_⟩
  · intro ha hg
    unfold LinguaTranslatorW.translate
    rw [if_neg htext, ha, hg]
    simp
  · intro ha
    unfold LinguaTranslatorW.translate
    rw [if_neg htext, ha]
    simp only [if_true]
    by_cases h1 : pyStartswith src "en"
    · rw [if_pos h1]
      cases w.enToHu text <;> simp
    · rw [if_neg h1]
      by_cases h2 : pyStartswith src "hu"
      · rw [if_pos h2]
        cases w.huToEn text <;> simp
      · rw [if_neg h2]
        simp
  · intro ha h1 h2 hthrow
    unfold LinguaTranslatorW.translate
    rw [if_neg htext, ha]
    simp only [if_true]
    rw [if_neg (by simp [h1]), if_pos h2, hthrow]
  · intro ha hg
    unfold LinguaTranslatorW.translate
    rw [if_neg htext, ha, hg]
    simp
  · intro hg
    unfold ModulesTranslatorW.translate
    rw [if_neg htext, hg]
    simp
  · intro hg
    unfold ModulesTranslatorW.translate
    rw [if_neg htext, hg]
    simp

/-- Witness for the amended C5 at a concrete wrapper pair and call. -/
theorem C5_witness :
    ¬ ("hello" : String) = "" ∧
    ((∀ (eh he : String → Except Unit String)
        (g : String → String → String → Except Unit String),
      (LinguaTranslatorW.make false true eh he g).argos = false ∧
      (LinguaTranslatorW.make false true eh he g).google = true) ∧
    (∀ (gta : Bool) (eh he : String → Except Unit String)
        (g : String → String → String → Except Unit String),
      (LinguaTranslatorW.make true gta eh he g).argos = true ∧
      (LinguaTranslatorW.make true gta eh he g).google = false) ∧
    (c5wrapper.argos = false → c5wrapper.google = true →
      c5wrapper.translate "hello" "hu" =
        (match c5wrapper.gtr "hello" "hu"
            (if pyStartswith "hu" "en" then "hu" else "en") with
         | Except.ok t => (some t, [Backend.googleSecondary])
         | Except.error _ => (none, [Backend.googleSecondary]))) ∧
    (c5wrapper.argos = true →
      Backend.googleSecondary ∉ (c5wrapper.translate "hello" "hu").2) ∧
    (c5wrapper.argos = true → pyStartswith "hu" "en" = false →
      pyStartswith "hu" "hu" = true →
      c5wrapper.huToEn "hello" = Except.error () →
      c5wrapper.translate "hello" "hu" = (none, [Backend.argosPrimary])) ∧
    (c5wrapper.argos = false → c5wrapper.google = false →
      c5wrapper.translate "hello" "hu" = (none, [])) ∧
    ((ModulesTranslatorW.mk true c5gtrOk).google = false →
      (ModulesTranslatorW.mk true c5gtrOk).translate "hello" "hu" = (none, [])) ∧
    ((ModulesTranslatorW.mk true c5gtrOk).google = true →
      (ModulesTranslatorW.mk true c5gtrOk).translate "hello" "hu" =
        (match (ModulesTranslatorW.mk true c5gtrOk).gtr "hello" "hu"
            (if pyStartswith "hu" "en" then "hu" else "en") with
         | Except.ok t => (some t, [Backend.googleSecondary])
         | Except.error _ => (none, [Backend.googleSecondary])))) :=
  ⟨by decide,
   C5_fallback_at_construction c5wrapper (ModulesTranslatorW.mk true c5gtrOk)
     "hello" "hu" (by decide)⟩

/-! C6: the direct-translate fallback in the `hu` branch. -/

/-- C6: in the `model_lang == "hu"` branch, when the verbatim transcription
succeeds and the TranslationService returns null, exactly one additional
engine call is made — `task="translate"` on the SAME snapshot — and when it
succeeds its stripped text becomes the emitted event's translated field
(computed fresh in this attempt, never left over from a previous one); the
translator is invoked on the stripped verbatim text.  In the English branch no
`task="translate"` call is ever made, whatever the oracles do. -/
theorem C6_direct_translate_fallback (snapshot : List ℚ) (o : AttemptOracle)
    (txt : Option String)
    (hv : o.verbatim = Except.ok txt) (ht : o.translation = none) :
    (runAttempt "hu" snapshot o).calls =
      [⟨snapshot, "hu", "transcribe"⟩, ⟨snapshot, "hu", "translate"⟩] ∧
    (runAttempt "hu" snapshot o).translatorArg = some (pyStrip (orEmpty txt)) ∧
    (∀ t2, o.direct = Except.ok t2 →
      (runAttempt "hu" snapshot o).emitted =
        (if pyStrip (orEmpty txt) = "" then none
         else some ⟨pyStrip (orEmpty txt), "hu", pyStrip (orEmpty t2)⟩)) ∧
    (∀ (snapshot2 : List ℚ) (o2 : AttemptOracle),
      ∀ c ∈ (runAttempt "en" snapshot2 o2).calls, c.task = "transcribe") := by
  have hfalsy : strFalsy o.translation = true := by rw [ht]; rfl
  refine ⟨?_, ?_, ?_, ?_⟩
  · unfold runAttempt
    rw [if_pos rfl, hv]
    dsimp only
    rw [if_pos hfalsy]
    cases o.direct <;> rfl
  · unfold runAttempt
    rw [if_pos rfl, hv]
    dsimp only
    rw [if_pos hfalsy]
    cases o.direct <;> rfl
  · intro t2 hd
    unfold runAttempt
    rw [if_pos rfl, hv]
    dsimp only
    rw [if_pos hfalsy, hd]
  · intro snapshot2 o2 c hc
    unfold runAttempt at hc
    rw [if_neg (by decide : ¬ ("en" : String) = "hu")] at hc
    cases hv2 : o2.verbatim with
    | error e =>
      rw [hv2] at hc
      dsimp only at hc
      rw [List.mem_singleton] at hc
      rw [hc]
    | ok t =>
      rw [hv2] at hc
      dsimp only at hc
      rw [List.mem_singleton] at hc
      rw [hc]

/-- Witness for C6 at a concrete oracle. -/
theorem C6_witness :
    c6oracle.verbatim = Except.ok (some " szia ") ∧
    c6oracle.translation = none ∧
    ((runAttempt "hu" [] c6oracle).calls =
      [⟨[], "hu", "transcribe"⟩, ⟨[], "hu", "translate"⟩] ∧
    (runAttempt "hu" [] c6oracle).translatorArg =
      some (pyStrip (orEmpty (some " szia "))) ∧
    (∀ t2, c6oracle.direct = Except.ok t2 →
      (runAttempt "hu" [] c6oracle).emitted =
        (if pyStrip (orEmpty (some " szia ")) = "" then none
         else some ⟨pyStrip (orEmpty (some " szia ")), "hu", pyStrip (orEmpty t2)⟩)) ∧
    (∀ (snapshot2 : List ℚ) (o2 : AttemptOracle),
      ∀ c ∈ (runAttempt "en" snapshot2 o2).calls, c.task = "transcribe")) :=
  ⟨rfl, rfl, C6_direct_translate_fallback [] c6oracle (some " szia ") rfl rfl⟩

/-! C7: emission condition and timer reset. -/

/-- Shape of a completed (non-raising) attempt: the event is emitted iff the
stripped verbatim text is nonempty, its original field is that text, and its
translated field comes from the translator or from the direct-translate
fallback. -/
theorem runAttempt_no_err (modelLang : String) (snapshot : List ℚ)
    (o : AttemptOracle) (txt : Option String)
    (hv : o.verbatim = Except.ok txt)
    (hok : (runAttempt modelLang snapshot o).errMsg = none) :
    ∃ srcv tr,
      (runAttempt modelLang snapshot o).emitted =
        (if pyStrip (orEmpty txt) = "" then none
         else some ⟨pyStrip (orEmpty txt), srcv, tr⟩) ∧
      (tr = orEmpty o.translation ∨
        ∃ t2, o.direct = Except.ok t2 ∧ tr = pyStrip (orEmpty t2)) := by
  unfold runAttempt at hok ⊢
  by_cases hl : modelLang = "hu"
  · rw [if_pos hl, hv] at hok ⊢
    dsimp only at hok ⊢
    by_cases hf : strFalsy o.translation = true
    · rw [if_pos hf] at hok ⊢
      cases hd : o.direct with
      | error e =>
        rw [hd] at hok
        exact absurd hok (by simp)
      | ok t2 =>
        exact ⟨"hu", pyStrip (orEmpty t2), rfl, Or.inr ⟨t2, rfl, rfl⟩⟩
    · rw [if_neg hf] at hok ⊢
      exact ⟨"hu", orEmpty o.translation, rfl, Or.inl rfl⟩
  · rw [if_neg hl, hv] at hok ⊢
    dsimp only at hok ⊢
    exact ⟨"en", orEmpty o.translation, rfl, Or.inl rfl⟩

/-- C7 counterexample: a `hu` attempt whose verbatim transcription yields the
nonempty text "hello" but whose direct-translate fallback raises emits NO
result event (the exception aborts the iteration's `try` body before
`new_result.emit`) — refuting "a result event is emitted if and only if the
verbatim transcription text is non-empty". -/
theorem C7_counterexample :
    ¬ pyStrip (orEmpty (some "hello")) = "" ∧
    (runAttempt "hu" [] c7oracle).emitted = none ∧
    (runAttempt "hu" [] c7oracle).errMsg = some "Transcribe error: boom" := by
  refine ⟨by decide, ?_, ?_⟩ <;> decide

/-- C7 (amended): in an attempt whose engine calls all return (no exception),
an event is emitted iff the stripped verbatim text is nonempty; the emitted
original is that text and the translated field is the translator's result
(empty string when it is null or empty) or the stripped direct-translate text
in the `hu` fallback; an attempt whose fallback raises emits nothing.  The
interval timer is reset when the attempt fires — `last_transcribe = now`
precedes the `try` — regardless of whether the text turns out empty or the
attempt raises, so silence windows produce no events but still reset the
timer. -/
theorem C7_emit_iff_nonempty_and_timer_reset (cfg : LoopConfig) (s : LoopState)
    (inp : IterInput) (modelLang : String) (snapshot : List ℚ)
    (o : AttemptOracle) (txt : Option String)
    (hv : o.verbatim = Except.ok txt)
    (hok : (runAttempt modelLang snapshot o).errMsg = none) :
    ((runAttempt modelLang snapshot o).emitted.isSome = true ↔
      ¬ pyStrip (orEmpty txt) = "") ∧
    (∀ ev, (runAttempt modelLang snapshot o).emitted = some ev →
      ev.original = pyStrip (orEmpty txt) ∧
      (ev.translated = orEmpty o.translation ∨
        ∃ t2, o.direct = Except.ok t2 ∧ ev.translated = pyStrip (orEmpty t2))) ∧
    (∀ f, (loopIter cfg s inp).2 = some f →
      (loopIter cfg s inp).1.lastTranscribe = s.tEnd + inp.gap) := by
  obtain ⟨srcv, tr, hemit, htr⟩ := runAttempt_no_err modelLang snapshot o txt hv hok
  refine ⟨?_, ?_, ?_⟩
  · rw [hemit]
    by_cases ho : pyStrip (orEmpty txt) = ""
    · rw [if_pos ho]
      simp [ho]
    · rw [if_neg ho]
      simp [ho]
  · intro ev hev
    rw [hemit] at hev
    by_cases ho : pyStrip (orEmpty txt) = ""
    · rw [if_pos ho] at hev
      cases hev
    · rw [if_neg ho] at hev
      cases hev
      exact ⟨rfl, by
        cases htr with
        | inl h => exact Or.inl h
        | inr h => exact Or.inr h⟩
  · intro f hf
    obtain ⟨hstart, _, _, hlast, _, _⟩ := loopIter_fired cfg s inp f hf
    rw [hlast, hstart]

/-- Witness for the amended C7 at a concrete completed attempt. -/
theorem C7_witness :
    c7okOracle.verbatim = Except.ok (some " hi ") ∧
    (runAttempt "en" [] c7okOracle).errMsg = none ∧
    (((runAttempt "en" [] c7okOracle).emitted.isSome = true ↔
      ¬ pyStrip (orEmpty (some " hi ")) = "") ∧
    (∀ ev, (runAttempt "en" [] c7okOracle).emitted = some ev →
      ev.original = pyStrip (orEmpty (some " hi ")) ∧
      (ev.translated = orEmpty c7okOracle.translation ∨
        ∃ t2, c7okOracle.direct = Except.ok t2 ∧
          ev.translated = pyStrip (orEmpty t2))) ∧
    (∀ f, (loopIter c3cfg c3state c3inp).2 = some f →
      (loopIter c3cfg c3state c3inp).1.lastTranscribe =
        c3state.tEnd + c3inp.gap)) :=
  ⟨rfl, rfl,
   C7_emit_iff_nonempty_and_timer_reset c3cfg c3state c3inp "en" [] c7okOracle
     (some " hi ") rfl rfl⟩

/-! C9: a raising attempt is non-fatal. -/

/-- A verbatim `transcribe` call that raises is caught by the `except` at line
137: the attempt emits an `error` notification with the exception's message and
no result event. -/
theorem runAttempt_verbatim_throw (modelLang : String) (snapshot : List ℚ)
    (o : AttemptOracle) (e : String) (hv : o.verbatim = Except.error e) :
    (runAttempt modelLang snapshot o).errMsg = some ("Transcribe error: " ++ e) ∧
    (runAttempt modelLang snapshot o).emitted = none := by
  unfold runAttempt
  by_cases hl : modelLang = "hu"
  · rw [if_pos hl, hv]
    exact ⟨rfl, rfl⟩
  · rw [if_neg hl, hv]
    exact ⟨rfl, rfl⟩

/-- C9: an exception inside one transcription attempt is non-fatal.  The
`_running` flag is untouched, the loop processes the remaining iterations of
the session exactly as it would have, and the failed attempt surfaces an
`error` notification (`"Transcribe error: ..."`) instead of a result event. -/
theorem C9_attempt_exception_nonfatal (cfg : LoopConfig) (s : LoopState)
    (inp : IterInput) (rest : List IterInput) (e : String)
    (hrun : s.running = true) (hv : inp.oracle.verbatim = Except.error e) :
    (loopIter cfg s inp).1.running = true ∧
    processLoop cfg s (inp :: rest) =
      ((processLoop cfg (loopIter cfg s inp).1 rest).1,
        (loopIter cfg s inp).2 :: (processLoop cfg (loopIter cfg s inp).1 rest).2) ∧
    (∀ f, (loopIter cfg s inp).2 = some f →
      f.result.errMsg = some ("Transcribe error: " ++ e) ∧
      f.result.emitted = none) := by
  refine ⟨by rw [loopIter_running]; exact hrun,
    processLoop_cons_of_running cfg s inp rest hrun, ?_⟩
  intro f hf
  obtain ⟨_, _, hres, _, _, _⟩ := loopIter_fired cfg s inp f hf
  rw [hres]
  exact runAttempt_verbatim_throw cfg.modelLang _ inp.oracle e hv

/-- Witness for C9 at a concrete raising attempt. -/
theorem C9_witness :
    c9state.running = true ∧
    c9inp.oracle.verbatim = Except.error "boom" ∧
    ((loopIter c9cfg c9state c9inp).1.running = true ∧
    processLoop c9cfg c9state (c9inp :: []) =
      ((processLoop c9cfg (loopIter c9cfg c9state c9inp).1 []).1,
        (loopIter c9cfg c9state c9inp).2 ::
          (processLoop c9cfg (loopIter c9cfg c9state c9inp).1 []).2) ∧
    (∀ f, (loopIter c9cfg c9state c9inp).2 = some f →
      f.result.errMsg = some ("Transcribe error: " ++ "boom") ∧
      f.result.emitted = none)) :=
  ⟨rfl, rfl, C9_attempt_exception_nonfatal c9cfg c9state c9inp [] "boom" rfl rfl⟩

/-! C8 and C10: the `start`/`stop` lifecycle. -/

/-- C8: when `sd.InputStream(...)` raises (for example an invalid device
index), `start` surfaces exactly one `error` notification, clears `_running`,
opens no stream, starts no worker thread (so no audio callback can ever fire)
and emits no `"Listening"` status; a subsequent `stop()` is a no-op on the
run/stream/thread state that never raises — it only appends the `"Stopped."`
status — and calling `stop()` again does exactly the same, so `stop` is
idempotent and safe after a failed `start`. -/
theorem C8_failed_start_then_stop_safe (e : String) (strt : Except String Unit) :
    (STTWorker.start (Except.error e) strt initWorker).running = false ∧
    (STTWorker.start (Except.error e) strt initWorker).stream = none ∧
    (STTWorker.start (Except.error e) strt initWorker).workerThread = false ∧
    (STTWorker.start (Except.error e) strt initWorker).errors =
      ["Audio input stream error: " ++ e] ∧
    (STTWorker.start (Except.error e) strt initWorker).statuses = [] ∧
    (STTWorker.stop (STTWorker.start (Except.error e) strt initWorker)).running = false ∧
    (STTWorker.stop (STTWorker.start (Except.error e) strt initWorker)).stream = none ∧
    (STTWorker.stop (STTWorker.start (Except.error e) strt initWorker)).workerThread = false ∧
    (STTWorker.stop (STTWorker.start (Except.error e) strt initWorker)).errors =
      (STTWorker.start (Except.error e) strt initWorker).errors ∧
    (STTWorker.stop (STTWorker.start (Except.error e) strt initWorker)).statuses =
      (STTWorker.start (Except.error e) strt initWorker).statuses ++ ["Stopped."] ∧
    STTWorker.stop (STTWorker.stop (STTWorker.start (Except.error e) strt initWorker)) =
      { STTWorker.stop (STTWorker.start (Except.error e) strt initWorker) with
          statuses :=
            (STTWorker.stop (STTWorker.start (Except.error e) strt initWorker)).statuses
              ++ ["Stopped."] } := by
  simp [STTWorker.start, STTWorker.stop, initWorker]

/-- C10: calling `start` while `_running` is already set returns immediately
with the worker state completely unchanged: no stream is opened, no thread
started, and no status or error notification emitted, whatever the audio
device would have done. -/
theorem C10_duplicate_start_noop (ctor strt : Except String Unit)
    (s : WorkerState) (h : s.running = true) :
    STTWorker.start ctor strt s = s := by
  unfold STTWorker.start
  rw [if_pos h]

/-- Witness for C10 at a concrete running worker. -/
theorem C10_witness :
    c10state.running = true ∧
    STTWorker.start (Except.ok ()) (Except.ok ()) c10state = c10state :=
  ⟨rfl, C10_duplicate_start_noop (Except.ok ()) (Except.ok ()) c10state rfl⟩
